import Mathlib

/-!
Verification of the trlc-platform classification engine.

This file gives a shallow embedding, in Lean, of the platform-detection
headers of the trlc-platform repository (compiler.hpp, cpp_standard.hpp,
architecture.hpp, endianness.hpp, features.hpp, core.hpp) and proves the
documented properties of that code.

Preprocessor-conditional code is embedded by making the set of predefined
macros explicit: each classifier becomes a Lean function of an environment
record whose fields say which macros are defined and what their values are.
Macro values are modelled as `Nat` (every macro value the code consults is a
non-negative integer literal).  Fixed-width unsigned integers are modelled as
`Nat` with an explicit bound `v < 2 ^ w`.
-/

namespace TrlcPlatform

/-! ## Compiler classifier (compiler.hpp) -/

/-- `CompilerType` enumeration from compiler.hpp. -/
inductive CompilerType : Type where
  | unknown
  | gcc
  | clang
  | msvc
  | intel_classic
  | intel_llvm
  | mingw
deriving DecidableEq, Repr

/-- `CompilerVersion` structure from compiler.hpp: major/minor/patch,
non-negative integers. -/
structure CompilerVersion : Type where
  major : Nat
  minor : Nat
  patch : Nat
deriving DecidableEq, Repr

/-- `operator>=`: lexicographic greater-or-equal, exactly as coded
(compare majors when they differ, else minors when they differ, else
patch with `>=`). -/
def CompilerVersion.ge (a b : CompilerVersion) : Bool :=
  if a.major ≠ b.major then decide (a.major > b.major)
  else if a.minor ≠ b.minor then decide (a.minor > b.minor)
  else decide (a.patch ≥ b.patch)

/-- `operator<`: lexicographic less-than, exactly as coded. -/
def CompilerVersion.lt (a b : CompilerVersion) : Bool :=
  if a.major ≠ b.major then decide (a.major < b.major)
  else if a.minor ≠ b.minor then decide (a.minor < b.minor)
  else decide (a.patch < b.patch)

/-- `operator==`: componentwise equality. -/
def CompilerVersion.eq (a b : CompilerVersion) : Bool :=
  decide (a.major = b.major) && decide (a.minor = b.minor) &&
    decide (a.patch = b.patch)

/-- `operator!=`: negation of `operator==`. -/
def CompilerVersion.ne (a b : CompilerVersion) : Bool :=
  ! (CompilerVersion.eq a b)

/-- `operator>`: derived as `!(*this < other) && !(*this == other)`. -/
def CompilerVersion.gt (a b : CompilerVersion) : Bool :=
  ! (CompilerVersion.lt a b) && ! (CompilerVersion.eq a b)

/-- `operator<=`: derived as `(*this < other) || (*this == other)`. -/
def CompilerVersion.le (a b : CompilerVersion) : Bool :=
  CompilerVersion.lt a b || CompilerVersion.eq a b

/-- The compiler-identity macros consulted by compiler.hpp.  A `Bool`
field records whether the macro is defined; an `Option Nat` field
additionally records its value when defined. -/
structure CompilerEnv : Type where
  /-- value of `__INTEL_COMPILER` when defined -/
  intel_compiler : Option Nat
  /-- `__ICL` defined -/
  icl : Bool
  /-- `__ICC` defined -/
  icc : Bool
  /-- `__clang__` defined -/
  clang : Bool
  /-- `__clang_major__` (meaningful when `clang`) -/
  clang_major : Nat
  /-- `__clang_minor__` -/
  clang_minor : Nat
  /-- `__clang_patchlevel__` -/
  clang_patchlevel : Nat
  /-- value of `__GNUC__` when defined -/
  gnuc : Option Nat
  /-- `__GNUC_MINOR__` (meaningful when `gnuc` is defined) -/
  gnuc_minor : Nat
  /-- value of `__GNUC_PATCHLEVEL__` when defined -/
  gnuc_patchlevel : Option Nat
  /-- `__MINGW32__` defined -/
  mingw32 : Bool
  /-- `__MINGW64__` defined -/
  mingw64 : Bool
  /-- value of `_MSC_VER` when defined -/
  msc_ver : Option Nat
deriving Repr

/-- `getCompilerType()` from compiler.hpp: the `#if defined` chain
(Intel family first, then Clang, then GCC with nested MinGW, then MSVC). -/
def getCompilerType (e : CompilerEnv) : CompilerType :=
  if e.intel_compiler.isSome || e.icl || e.icc then
    if e.clang then CompilerType.intel_llvm else CompilerType.intel_classic
  else if e.clang then CompilerType.clang
  else if e.gnuc.isSome then
    if e.mingw32 || e.mingw64 then CompilerType.mingw else CompilerType.gcc
  else if e.msc_ver.isSome then CompilerType.msvc
  else CompilerType.unknown

/-- `getCompilerVersion()` from compiler.hpp: `#if defined(__INTEL_COMPILER)`
digit-split, `#elif defined(__clang__)` direct macros,
`#elif defined(__GNUC__)` direct macros with optional patchlevel,
`#elif defined(_MSC_VER)` threshold table, else `(0,0,0)`. -/
def getCompilerVersion (e : CompilerEnv) : CompilerVersion :=
  match e.intel_compiler with
  | some ic => ⟨ic / 100, (ic % 100) / 10, ic % 10⟩
  | none =>
    if e.clang then ⟨e.clang_major, e.clang_minor, e.clang_patchlevel⟩
    else
      match e.gnuc with
      | some g => ⟨g, e.gnuc_minor, e.gnuc_patchlevel.getD 0⟩
      | none =>
        match e.msc_ver with
        | some m =>
          if m ≥ 1940 then ⟨19, 4, m - 1940⟩
          else if m ≥ 1930 then ⟨19, 3, m - 1930⟩
          else if m ≥ 1920 then ⟨19, 2, m - 1920⟩
          else if m ≥ 1910 then ⟨19, 1, m - 1910⟩
          else if m ≥ 1900 then ⟨19, 0, m - 1900⟩
          else ⟨m / 100, (m % 100) / 10, m % 10⟩
        | none => ⟨0, 0, 0⟩

/-! ## Language-standard classifier (cpp_standard.hpp) -/

/-- `CppStandard` enumeration from cpp_standard.hpp. -/
inductive CppStandard : Type where
  | cpp_pre_17
  | cpp_17
  | cpp_20
  | cpp_23
  | cpp_26
  | cpp_unknown
deriving DecidableEq, Repr

/-- The underlying `long` value of each `CppStandard` enumerator
(`enum class CppStandard : long`): the language-version-macro thresholds,
with `cpp_pre_17 = 0` and `cpp_unknown = -1`. -/
def CppStandard.toLong : CppStandard → Int
  | .cpp_pre_17 => 0
  | .cpp_17 => 201703
  | .cpp_20 => 202002
  | .cpp_23 => 202302
  | .cpp_26 => 202600
  | .cpp_unknown => -1

/-- `getCppStandard() >= CppStandard::x`: built-in relational comparison on
the underlying `long` values of the scoped enum. -/
def cppStdGe (a b : CppStandard) : Bool :=
  decide (CppStandard.toLong a ≥ CppStandard.toLong b)

/-- The language-version and feature-test macros consulted by
cpp_standard.hpp.  Each `Option Nat` field is the macro's value when it is
defined, `none` when it is not. -/
structure CppEnv : Type where
  /-- value of `_MSVC_LANG` when defined -/
  msvc_lang : Option Nat
  /-- value of `__cplusplus` when defined -/
  cplusplus : Option Nat
  /-- `__cpp_concepts` -/
  cpp_concepts : Option Nat
  /-- `__cpp_impl_coroutine` -/
  cpp_impl_coroutine : Option Nat
  /-- `__cpp_coroutines` -/
  cpp_coroutines : Option Nat
  /-- `__cpp_modules` -/
  cpp_modules : Option Nat
  /-- `__cpp_lib_ranges` -/
  cpp_lib_ranges : Option Nat
  /-- `__cpp_consteval` -/
  cpp_consteval : Option Nat
  /-- `__cpp_constinit` -/
  cpp_constinit : Option Nat
  /-- `__cpp_designated_initializers` -/
  cpp_designated_initializers : Option Nat
  /-- `__cpp_impl_three_way_comparison` -/
  cpp_impl_three_way_comparison : Option Nat
deriving Repr

/-- The `cpp_version` local of `detail::detectCppStandard()`:
`_MSVC_LANG` when defined, else `__cplusplus` when defined, else `0`. -/
def cppVersionSignal (e : CppEnv) : Nat :=
  match e.msvc_lang with
  | some v => v
  | none =>
    match e.cplusplus with
    | some v => v
    | none => 0

/-- `detail::detectCppStandard()` from cpp_standard.hpp: descending
threshold comparison of `cpp_version` (the pre-17 branch is the source's
disjunction `>= 201402 || >= 201103 || >= 199711`). -/
def detectCppStandard (e : CppEnv) : CppStandard :=
  let v := cppVersionSignal e
  if v ≥ 202600 then CppStandard.cpp_26
  else if v ≥ 202302 then CppStandard.cpp_23
  else if v ≥ 202002 then CppStandard.cpp_20
  else if v ≥ 201703 then CppStandard.cpp_17
  else if v ≥ 201402 ∨ v ≥ 201103 ∨ v ≥ 199711 then CppStandard.cpp_pre_17
  else CppStandard.cpp_unknown

/-- `getCppStandard()` from cpp_standard.hpp. -/
def getCppStandard (e : CppEnv) : CppStandard :=
  detectCppStandard e

/-- `hasConcepts()` from cpp_standard.hpp: `__cpp_concepts >= 201907` when
that macro is defined, else `getCppStandard() >= CppStandard::cpp_20`. -/
def hasConcepts (e : CppEnv) : Bool :=
  match e.cpp_concepts with
  | some v => decide (v ≥ 201907)
  | none => cppStdGe (getCppStandard e) CppStandard.cpp_20

/-- `hasCoroutines()` from cpp_standard.hpp: `__cpp_impl_coroutine` first,
else `__cpp_coroutines`, else the standard-level fallback. -/
def hasCoroutines (e : CppEnv) : Bool :=
  match e.cpp_impl_coroutine with
  | some v => decide (v ≥ 201902)
  | none =>
    match e.cpp_coroutines with
    | some v => decide (v ≥ 201902)
    | none => cppStdGe (getCppStandard e) CppStandard.cpp_20

/-- `hasModules()` from cpp_standard.hpp: `__cpp_modules >= 201907` when
that macro is defined, else `false` unconditionally (deliberately
conservative, per the source comment). -/
def hasModules (e : CppEnv) : Bool :=
  match e.cpp_modules with
  | some v => decide (v ≥ 201907)
  | none => false

/-- `hasRanges()` from cpp_standard.hpp. -/
def hasRanges (e : CppEnv) : Bool :=
  match e.cpp_lib_ranges with
  | some v => decide (v ≥ 201911)
  | none => cppStdGe (getCppStandard e) CppStandard.cpp_20

/-- `hasConsteval()` from cpp_standard.hpp. -/
def hasConsteval (e : CppEnv) : Bool :=
  match e.cpp_consteval with
  | some v => decide (v ≥ 201811)
  | none => cppStdGe (getCppStandard e) CppStandard.cpp_20

/-- `hasConstinit()` from cpp_standard.hpp. -/
def hasConstinit (e : CppEnv) : Bool :=
  match e.cpp_constinit with
  | some v => decide (v ≥ 201907)
  | none => cppStdGe (getCppStandard e) CppStandard.cpp_20

/-- `hasDesignatedInitializers()` from cpp_standard.hpp. -/
def hasDesignatedInitializers (e : CppEnv) : Bool :=
  match e.cpp_designated_initializers with
  | some v => decide (v ≥ 201707)
  | none => cppStdGe (getCppStandard e) CppStandard.cpp_20

/-- `hasThreeWayComparison()` from cpp_standard.hpp. -/
def hasThreeWayComparison (e : CppEnv) : Bool :=
  match e.cpp_impl_three_way_comparison with
  | some v => decide (v ≥ 201907)
  | none => cppStdGe (getCppStandard e) CppStandard.cpp_20

/-- A C++20 build environment (plain `__cplusplus = 202002`) that defines
no feature-test macros. -/
def envCpp20NoFeatureMacros : CppEnv :=
  ⟨none, some 202002, none, none, none, none, none, none, none, none, none⟩

/-! ## Byte order (endianness.hpp) -/

/-- `ByteOrder` enumeration from endianness.hpp. -/
inductive ByteOrder : Type where
  | unknown
  | little_endian
  | big_endian
  | mixed_endian
deriving DecidableEq, Repr

/-- `EndiannessInfo` structure from endianness.hpp. -/
structure EndiannessInfo : Type where
  byte_order : ByteOrder
  is_little_endian : Bool
  is_big_endian : Bool
deriving DecidableEq, Repr

/-- `EndiannessInfo::needsByteSwap()`: conservative false when either the
native or the target order is unknown, else inequality of orders. -/
def EndiannessInfo.needsByteSwap (info : EndiannessInfo)
    (target_order : ByteOrder) : Bool :=
  if info.byte_order = ByteOrder.unknown ∨ target_order = ByteOrder.unknown
  then false
  else decide (info.byte_order ≠ target_order)

/-- `areByteOrdersCompatible()` from endianness.hpp: unknown orders are
considered compatible (conservative), otherwise equality. -/
def areByteOrdersCompatible (order1 order2 : ByteOrder) : Bool :=
  if order1 = ByteOrder.unknown ∨ order2 = ByteOrder.unknown then true
  else decide (order1 = order2)

/-! ## Byte swapping (endianness.hpp)

`uintN_t` values are modelled as `Nat` bounded by `2 ^ N`.  The source
selects between a compiler builtin and a manual shift/mask implementation
depending on the compiler; both compute the byte reversal, and the manual
expressions are the ones embedded here, operator for operator. -/

/-- `detail::byteSwap16Impl()`: `(uint16_t)((value << 8) | (value >> 8))`;
the cast back to `uint16_t` after integer promotion is the `% 2 ^ 16`. -/
def byteSwap16Impl (value : Nat) : Nat :=
  ((value <<< 8) ||| (value >>> 8)) % 2 ^ 16

/-- `detail::byteSwap32Impl()`: the four mask-and-shift terms ORed
together, exactly as in the source. -/
def byteSwap32Impl (value : Nat) : Nat :=
  ((value &&& 0xFF000000) >>> 24) ||| ((value &&& 0x00FF0000) >>> 8) |||
    ((value &&& 0x0000FF00) <<< 8) ||| ((value &&& 0x000000FF) <<< 24)

/-- `detail::byteSwap64Impl()`: the eight mask-and-shift terms ORed
together, exactly as in the source. -/
def byteSwap64Impl (value : Nat) : Nat :=
  ((value &&& 0xFF00000000000000) >>> 56) |||
    ((value &&& 0x00FF000000000000) >>> 40) |||
    ((value &&& 0x0000FF0000000000) >>> 24) |||
    ((value &&& 0x000000FF00000000) >>> 8) |||
    ((value &&& 0x00000000FF000000) <<< 8) |||
    ((value &&& 0x0000000000FF0000) <<< 24) |||
    ((value &&& 0x000000000000FF00) <<< 40) |||
    ((value &&& 0x00000000000000FF) <<< 56)

/-- `byteSwap16()` public wrapper. -/
def byteSwap16 (value : Nat) : Nat :=
  byteSwap16Impl value

/-- `byteSwap32()` public wrapper. -/
def byteSwap32 (value : Nat) : Nat :=
  byteSwap32Impl value

/-- `byteSwap64()` public wrapper. -/
def byteSwap64 (value : Nat) : Nat :=
  byteSwap64Impl value

/-- Generic `byteSwap<Type>()`: dispatch on `sizeof(Type)` — 1 byte is a
no-op, 2/4/8 bytes go through the fixed-width swaps (signed types are
converted to the unsigned representation first, which is the identity on
the `Nat` model). -/
def byteSwap (sizeofType : Nat) (value : Nat) : Nat :=
  if sizeofType = 1 then value
  else if sizeofType = 2 then byteSwap16 value
  else if sizeofType = 4 then byteSwap32 value
  else if sizeofType = 8 then byteSwap64 value
  else value

/-- `convertByteOrder<Type>()` from endianness.hpp: identity when the two
orders are compatible, else a byte swap. -/
def convertByteOrder (sizeofType : Nat) (value : Nat)
    (from_order to_order : ByteOrder) : Nat :=
  if areByteOrdersCompatible from_order to_order then value
  else byteSwap sizeofType value

/-! ## Architecture classifier (architecture.hpp) -/

/-- `CpuArchitecture` enumeration from architecture.hpp. -/
inductive CpuArchitecture : Type where
  | unknown
  | x86
  | x86_64
  | arm_v6
  | arm_v7
  | arm_v8_32
  | arm_v8_64
  | mips
  | mips_64
  | powerpc
  | powerpc_64
  | risc_v_32
  | risc_v_64
  | sparc
  | sparc_64
deriving DecidableEq, Repr

/-- The architecture-identity macros consulted by architecture.hpp, plus
the implementation pointer width `sizeof(void*)` (in bytes) consulted by
the unknown-architecture fallback of `detectPointerSize()`.  Each `Bool`
collapses the source's OR of equivalent vendor spellings of one signal. -/
structure ArchEnv : Type where
  /-- `__x86_64__` / `__amd64__` / `_M_X64` family -/
  x86_64_sig : Bool
  /-- `__i386__` / `_M_IX86` family -/
  x86_sig : Bool
  /-- `__aarch64__` / `_M_ARM64` -/
  aarch64_sig : Bool
  /-- `__arm__` / `_M_ARM` -/
  arm_sig : Bool
  /-- `__ARM_ARCH_8__` / `__ARM_ARCH_8A__` -/
  arm_v8_sub : Bool
  /-- `__ARM_ARCH_7*__` family -/
  arm_v7_sub : Bool
  /-- `__ARM_ARCH_6*__` family -/
  arm_v6_sub : Bool
  /-- `__mips__` family -/
  mips_sig : Bool
  /-- `__mips64` / `_MIPS_SIM == _ABI64` -/
  mips64_sub : Bool
  /-- `__powerpc__` / `__ppc__` / `_M_PPC` family -/
  ppc_sig : Bool
  /-- `__powerpc64__` / `__PPC64__` family -/
  ppc64_sub : Bool
  /-- `__riscv` -/
  riscv_sig : Bool
  /-- value of `__riscv_xlen` when defined -/
  riscv_xlen : Option Nat
  /-- `__sparc__` / `__sparc` -/
  sparc_sig : Bool
  /-- `__sparc64__` / `__sparcv9` -/
  sparc64_sub : Bool
  /-- `sizeof(void*)` in bytes, as observed by the implementation -/
  voidPtrBytes : Nat
deriving Repr

/-- `detail::detectCpuArchitecture()` from architecture.hpp: the strict
`#if/#elif` chain (x86-64 before x86, AArch64 before generic ARM with
nested v8/v7/v6 sub-checks defaulting to v7, then MIPS, PowerPC, RISC-V
with xlen dispatch defaulting to 64-bit, SPARC, else unknown). -/
def detectCpuArchitecture (e : ArchEnv) : CpuArchitecture :=
  if e.x86_64_sig then CpuArchitecture.x86_64
  else if e.x86_sig then CpuArchitecture.x86
  else if e.aarch64_sig then CpuArchitecture.arm_v8_64
  else if e.arm_sig then
    if e.arm_v8_sub then CpuArchitecture.arm_v8_32
    else if e.arm_v7_sub then CpuArchitecture.arm_v7
    else if e.arm_v6_sub then CpuArchitecture.arm_v6
    else CpuArchitecture.arm_v7
  else if e.mips_sig then
    if e.mips64_sub then CpuArchitecture.mips_64 else CpuArchitecture.mips
  else if e.ppc_sig then
    if e.ppc64_sub then CpuArchitecture.powerpc_64
    else CpuArchitecture.powerpc
  else if e.riscv_sig then
    match e.riscv_xlen with
    | some 64 => CpuArchitecture.risc_v_64
    | some 32 => CpuArchitecture.risc_v_32
    | _ => CpuArchitecture.risc_v_64
  else if e.sparc_sig then
    if e.sparc64_sub then CpuArchitecture.sparc_64 else CpuArchitecture.sparc
  else CpuArchitecture.unknown

/-- `detail::detectPointerSize()` from architecture.hpp: 64 for the
64-bit variant group, 32 for the plain group, and `sizeof(void*) * 8` for
the unknown fallback. -/
def detectPointerSize (e : ArchEnv) : Nat :=
  match detectCpuArchitecture e with
  | CpuArchitecture.x86_64 | CpuArchitecture.arm_v8_64
  | CpuArchitecture.mips_64 | CpuArchitecture.powerpc_64
  | CpuArchitecture.risc_v_64 | CpuArchitecture.sparc_64 => 64
  | CpuArchitecture.x86 | CpuArchitecture.arm_v6 | CpuArchitecture.arm_v7
  | CpuArchitecture.arm_v8_32 | CpuArchitecture.mips
  | CpuArchitecture.powerpc | CpuArchitecture.risc_v_32
  | CpuArchitecture.sparc => 32
  | CpuArchitecture.unknown => e.voidPtrBytes * 8

/-- `detail::detectCacheLineSize()` from architecture.hpp. -/
def detectCacheLineSize (e : ArchEnv) : Nat :=
  match detectCpuArchitecture e with
  | CpuArchitecture.x86 | CpuArchitecture.x86_64 => 64
  | CpuArchitecture.arm_v6 | CpuArchitecture.arm_v7 => 32
  | CpuArchitecture.arm_v8_32 | CpuArchitecture.arm_v8_64 => 64
  | CpuArchitecture.powerpc | CpuArchitecture.powerpc_64 => 128
  | CpuArchitecture.mips | CpuArchitecture.mips_64
  | CpuArchitecture.risc_v_32 | CpuArchitecture.risc_v_64
  | CpuArchitecture.sparc | CpuArchitecture.sparc_64 => 64
  | CpuArchitecture.unknown => 64

/-- `detail::getArchitectureName()` from architecture.hpp. -/
def getArchitectureName (e : ArchEnv) : String :=
  match detectCpuArchitecture e with
  | CpuArchitecture.x86 => "x86"
  | CpuArchitecture.x86_64 => "x86_64"
  | CpuArchitecture.arm_v6 => "ARM v6"
  | CpuArchitecture.arm_v7 => "ARM v7"
  | CpuArchitecture.arm_v8_32 => "ARM v8 (32-bit)"
  | CpuArchitecture.arm_v8_64 => "ARM v8 (64-bit)"
  | CpuArchitecture.mips => "MIPS"
  | CpuArchitecture.mips_64 => "MIPS64"
  | CpuArchitecture.powerpc => "PowerPC"
  | CpuArchitecture.powerpc_64 => "PowerPC64"
  | CpuArchitecture.risc_v_32 => "RISC-V 32"
  | CpuArchitecture.risc_v_64 => "RISC-V 64"
  | CpuArchitecture.sparc => "SPARC"
  | CpuArchitecture.sparc_64 => "SPARC64"
  | CpuArchitecture.unknown => "Unknown"

/-- `ArchitectureInfo` structure from architecture.hpp. -/
structure ArchitectureInfo : Type where
  architecture : CpuArchitecture
  byte_order : ByteOrder
  pointer_size_bits : Nat
  cache_line_size : Nat
  arch_name : String
deriving DecidableEq, Repr

/-- `ArchitectureInfo::is64Bit()`: `pointer_size_bits == 64`. -/
def ArchitectureInfo.is64Bit (info : ArchitectureInfo) : Bool :=
  decide (info.pointer_size_bits = 64)

/-- `ArchitectureInfo::is32Bit()`: `pointer_size_bits == 32`. -/
def ArchitectureInfo.is32Bit (info : ArchitectureInfo) : Bool :=
  decide (info.pointer_size_bits = 32)

/-- `getArchitectureInfo()` from architecture.hpp; `byteOrder` stands for
the value of `getByteOrder()` from endianness.hpp, which the architecture
classifier takes as given. -/
def getArchitectureInfo (e : ArchEnv) (byteOrder : ByteOrder) :
    ArchitectureInfo :=
  ⟨detectCpuArchitecture e, byteOrder, detectPointerSize e,
    detectCacheLineSize e, getArchitectureName e⟩

/-- A build environment matching no architecture signal, on an
implementation with 16-bit pointers (`sizeof(void*) = 2`). -/
def envUnknownArch16BitPtr : ArchEnv :=
  ⟨false, false, false, false, false, false, false, false, false, false,
    false, false, none, false, false, 2⟩



/-! ## Runtime feature probes (features.hpp)

The CPUID registers returned by the hardware are an oracle: a function
from (leaf, subleaf, register index) to a 32-bit register value.  The
`TRLC_HAS_X86_INTRINSICS` preprocessor gate is the `x86` flag. -/

/-- The CPU-identification query: `detail::cpuid()` output registers,
indexed 0 = EAX, 1 = EBX, 2 = ECX, 3 = EDX. -/
structure CpuidOracle : Type where
  regs : Nat → Nat → Fin 4 → Nat

/-- `detail::checkCpuFeature()` from features.hpp:
`(regs[reg] & (1u << bit)) != 0`. -/
def checkCpuFeature (c : CpuidOracle) (leaf subleaf : Nat) (reg : Fin 4)
    (bit : Nat) : Bool :=
  decide ((c.regs leaf subleaf reg) &&& (1 <<< bit) ≠ 0)

/-- `hasSseSupport()`: leaf 1, subleaf 0, EDX bit 25 on x86, else false. -/
def hasSseSupport (x86 : Bool) (c : CpuidOracle) : Bool :=
  if x86 then checkCpuFeature c 1 0 3 25 else false

/-- `hasSse2Support()`: leaf 1, subleaf 0, EDX bit 26 on x86, else false. -/
def hasSse2Support (x86 : Bool) (c : CpuidOracle) : Bool :=
  if x86 then checkCpuFeature c 1 0 3 26 else false

/-- `hasSse3Support()`: leaf 1, subleaf 0, ECX bit 0 on x86, else false. -/
def hasSse3Support (x86 : Bool) (c : CpuidOracle) : Bool :=
  if x86 then checkCpuFeature c 1 0 2 0 else false

/-- `hasSse41Support()`: leaf 1, subleaf 0, ECX bit 19 on x86, else
false. -/
def hasSse41Support (x86 : Bool) (c : CpuidOracle) : Bool :=
  if x86 then checkCpuFeature c 1 0 2 19 else false

/-- `hasSse42Support()`: leaf 1, subleaf 0, ECX bit 20 on x86, else
false. -/
def hasSse42Support (x86 : Bool) (c : CpuidOracle) : Bool :=
  if x86 then checkCpuFeature c 1 0 2 20 else false

/-- `hasAvxSupport()`: leaf 1, subleaf 0, ECX bit 28 on x86, else false. -/
def hasAvxSupport (x86 : Bool) (c : CpuidOracle) : Bool :=
  if x86 then checkCpuFeature c 1 0 2 28 else false

/-- `hasAvx2Support()`: leaf 7, subleaf 0, EBX bit 5 on x86, else false. -/
def hasAvx2Support (x86 : Bool) (c : CpuidOracle) : Bool :=
  if x86 then checkCpuFeature c 7 0 1 5 else false

/-- `hasAvx512fSupport()`: leaf 7, subleaf 0, EBX bit 16 on x86, else
false. -/
def hasAvx512fSupport (x86 : Bool) (c : CpuidOracle) : Bool :=
  if x86 then checkCpuFeature c 7 0 1 16 else false

/-- `hasHardwareAes()` from features.hpp: leaf 1, subleaf 0, ECX bit 25
on x86; `#elif TRLC_HAS_ARM_INTRINSICS && defined(__ARM_FEATURE_AES)`
returns true; else false.  `arm` is the `TRLC_HAS_ARM_INTRINSICS` gate
and `armFeatureAes` is whether `__ARM_FEATURE_AES` is defined. -/
def hasHardwareAes (x86 arm armFeatureAes : Bool) (c : CpuidOracle) :
    Bool :=
  if x86 then checkCpuFeature c 1 0 2 25
  else if arm && armFeatureAes then true
  else false

/-- `hasHardwareRandom()`: leaf 1, subleaf 0, ECX bit 30 (RDRAND) on x86,
else false. -/
def hasHardwareRandom (x86 : Bool) (c : CpuidOracle) : Bool :=
  if x86 then checkCpuFeature c 1 0 2 30 else false

/-! ## Initialization state machine (core.hpp)

The two atomic flags of core.hpp are a state record; one call to
`initializePlatform()` is one atomic-step execution of its body.  In the
losing branch (initialization already in progress and not yet done) the
sequential model busy-waits forever, so the call is modelled as returning
`none` (no single-threaded return); every other path returns the
post-state. -/

/-- The two inline atomic flags of core.hpp:
`detail::g_platform_initialized` and
`detail::g_initialization_in_progress`. -/
structure InitState : Type where
  g_platform_initialized : Bool
  g_initialization_in_progress : Bool
deriving DecidableEq, Repr

/-- Process start: both flags false. -/
def initialInitState : InitState :=
  ⟨false, false⟩

/-- `initializePlatform()` from core.hpp as a state transformer: return
immediately when the done flag is set; otherwise try the compare-and-set
on the in-progress flag — on failure spin-wait for the done flag (no
return in the sequential model), on success run the (empty) setup, store
the done flag, and clear the in-progress flag. -/
def initializePlatform (s : InitState) : Option InitState :=
  if s.g_platform_initialized then some s
  else if s.g_initialization_in_progress then none
  else some ⟨true, false⟩

/-- `isPlatformInitialized()` from core.hpp: a pure read of the done
flag. -/
def isPlatformInitialized (s : InitState) : Bool :=
  s.g_platform_initialized

/-- Arithmetic characterization of `CompilerVersion.lt`. -/
theorem CompilerVersion.lt_iff (a b : CompilerVersion) :
    CompilerVersion.lt a b = true ↔
      (a.major < b.major ∨ (a.major = b.major ∧
        (a.minor < b.minor ∨ (a.minor = b.minor ∧ a.patch < b.patch)))) := by
  unfold CompilerVersion.lt
  by_cases h1 : a.major = b.major <;> by_cases h2 : a.minor = b.minor <;>
    simp [h1, h2]

/-- Arithmetic characterization of `CompilerVersion.ge`. -/
theorem CompilerVersion.ge_iff (a b : CompilerVersion) :
    CompilerVersion.ge a b = true ↔
      (b.major < a.major ∨ (a.major = b.major ∧
        (b.minor < a.minor ∨ (a.minor = b.minor ∧ b.patch ≤ a.patch)))) := by
  unfold CompilerVersion.ge
  by_cases h1 : a.major = b.major <;> by_cases h2 : a.minor = b.minor <;>
    simp [h1, h2]

/-- Arithmetic characterization of `CompilerVersion.eq`. -/
theorem CompilerVersion.eq_iff (a b : CompilerVersion) :
    CompilerVersion.eq a b = true ↔
      (a.major = b.major ∧ a.minor = b.minor ∧ a.patch = b.patch) := by
  unfold CompilerVersion.eq
  simp [and_assoc]

end TrlcPlatform

open TrlcPlatform

/-- C1: `getCompilerType()` resolves the vendor by the fixed disambiguation
order: any Intel signal first (split on `__clang__` into intel_llvm vs
intel_classic), then `__clang__`, then `__GNUC__` (split on MinGW signals
into mingw vs gcc), then `_MSC_VER`, else unknown; in particular an
environment with both `__clang__` and `__GNUC__` and no Intel signal is
classified clang. -/
theorem C1_compiler_type_disambiguation_order (e : CompilerEnv) :
    (getCompilerType e =
      if e.intel_compiler.isSome ∨ e.icl = true ∨ e.icc = true then
        (if e.clang = true then CompilerType.intel_llvm
         else CompilerType.intel_classic)
      else if e.clang = true then CompilerType.clang
      else if e.gnuc.isSome then
        (if e.mingw32 = true ∨ e.mingw64 = true then CompilerType.mingw
         else CompilerType.gcc)
      else if e.msc_ver.isSome then CompilerType.msvc
      else CompilerType.unknown) ∧
    (e.clang = true → e.gnuc.isSome →
      e.intel_compiler = none → e.icl = false → e.icc = false →
      getCompilerType e = CompilerType.clang) := by
  constructor
  · unfold getCompilerType
    rcases e with ⟨ic, icl, icc, cl, _, _, _, g, _, _, m32, m64, mv⟩
    rcases icl <;> rcases icc <;> rcases cl <;> rcases m32 <;> rcases m64 <;>
      rcases ic <;> rcases g <;> rcases mv <;> simp
  · intro hcl hg hic hicl hicc
    unfold getCompilerType
    simp [hcl, hic, hicl, hicc]

/-- C1 witness: a concrete environment defining both `__clang__` and
`__GNUC__` with no Intel signal is classified clang. -/
theorem C1_compiler_type_disambiguation_order_witness :
    getCompilerType
      ⟨none, false, false, true, 17, 0, 0, some 4, 2, some 1,
        false, false, none⟩ = CompilerType.clang :=
  (C1_compiler_type_disambiguation_order
      ⟨none, false, false, true, 17, 0, 0, some 4, 2, some 1,
        false, false, none⟩).2
    rfl (by decide) rfl rfl rfl

/-- C4: with no Intel, Clang or GCC signal and `_MSC_VER = m`,
`getCompilerVersion()` maps `m` through the release-boundary table
(1940/1930/1920/1910/1900, each giving major 19, a generation minor, and
patch = offset), falls back to digit-split below 1900, and returns
`(0,0,0)` when no vendor signal is recognized at all. -/
theorem C4_msvc_version_threshold_table (e : CompilerEnv) (m : Nat)
    (hic : e.intel_compiler = none) (hcl : e.clang = false)
    (hg : e.gnuc = none) :
    (e.msc_ver = some m →
      getCompilerVersion e =
        if m ≥ 1940 then ⟨19, 4, m - 1940⟩
        else if m ≥ 1930 then ⟨19, 3, m - 1930⟩
        else if m ≥ 1920 then ⟨19, 2, m - 1920⟩
        else if m ≥ 1910 then ⟨19, 1, m - 1910⟩
        else if m ≥ 1900 then ⟨19, 0, m - 1900⟩
        else ⟨m / 100, (m % 100) / 10, m % 10⟩) ∧
    (e.msc_ver = none → getCompilerVersion e = ⟨0, 0, 0⟩) := by
  constructor
  · intro hm
    unfold getCompilerVersion
    rw [hic, hcl, hg, hm]
    simp
  · intro hm
    unfold getCompilerVersion
    rw [hic, hcl, hg, hm]
    simp

/-- C4 witness: `_MSC_VER = 1935` (VS 2022 range) decodes to 19.3.5. -/
theorem C4_msvc_version_threshold_table_witness :
    getCompilerVersion
      ⟨none, false, false, false, 0, 0, 0, none, 0, none,
        false, false, some 1935⟩ = ⟨19, 3, 5⟩ := by
  have h := (C4_msvc_version_threshold_table
      ⟨none, false, false, false, 0, 0, 0, none, 0, none,
        false, false, some 1935⟩ 1935 rfl rfl rfl).1 rfl
  simpa using h

/-- C5: the comparison operators of `CompilerVersion` form a strict total
order consistent with lexicographic ordering on (major, minor, patch):
trichotomy holds, `>=` is the negation of `<`, `<=` is `< or ==`, `!=` is
the negation of `==`, `<` is transitive, and the three concrete
comparisons from the spec hold. -/
theorem C5_compiler_version_total_order (a b c : CompilerVersion) :
    ((a.lt b = true ∧ a.eq b = false ∧ a.gt b = false) ∨
     (a.lt b = false ∧ a.eq b = true ∧ a.gt b = false) ∨
     (a.lt b = false ∧ a.eq b = false ∧ a.gt b = true)) ∧
    (a.ge b = true ↔ a.lt b = false) ∧
    (a.le b = true ↔ (a.lt b = true ∨ a.eq b = true)) ∧
    (a.ne b = true ↔ a.eq b = false) ∧
    (a.lt b = true → b.lt c = true → a.lt c = true) ∧
    (CompilerVersion.gt ⟨10, 2, 1⟩ ⟨10, 2, 0⟩ = true ∧
     CompilerVersion.eq ⟨10, 2, 1⟩ ⟨10, 2, 1⟩ = true ∧
     CompilerVersion.lt ⟨9, 5, 2⟩ ⟨10, 2, 1⟩ = true) := by
  refine ⟨?_, ?_, ?_, ?_, ?_, by decide⟩
  · have hlt := CompilerVersion.lt_iff a b
    have heq := CompilerVersion.eq_iff a b
    rcases hl : CompilerVersion.lt a b <;> rcases he : CompilerVersion.eq a b
    · exact Or.inr (Or.inr ⟨rfl, rfl, by simp [CompilerVersion.gt, hl, he]⟩)
    · exact Or.inr (Or.inl ⟨rfl, rfl, by simp [CompilerVersion.gt, hl, he]⟩)
    · exact Or.inl ⟨rfl, rfl, by simp [CompilerVersion.gt, hl, he]⟩
    · rw [hl] at hlt
      rw [he] at heq
      simp only [true_iff] at hlt heq
      omega
  · have hlt := CompilerVersion.lt_iff a b
    rw [CompilerVersion.ge_iff]
    rcases hl : CompilerVersion.lt a b <;> rw [hl] at hlt <;>
      simp at hlt ⊢ <;> omega
  · simp [CompilerVersion.le]
  · simp [CompilerVersion.ne]
  · intro hab hbc
    rw [CompilerVersion.lt_iff] at hab hbc ⊢
    omega

/-- C5 witness: transitivity applied at concrete triples
9.5.2 < 10.2.1 < 11.0.0. -/
theorem C5_compiler_version_total_order_witness :
    CompilerVersion.lt ⟨9, 5, 2⟩ ⟨11, 0, 0⟩ = true :=
  (C5_compiler_version_total_order ⟨9, 5, 2⟩ ⟨10, 2, 1⟩ ⟨11, 0, 0⟩).2.2.2.2.1
    (by decide) (by decide)

/-- C2: `getCppStandard()` classifies the language-version signal
(`_MSVC_LANG` when defined, else `__cplusplus`, else 0) by descending
threshold comparison: ≥ 202600 → C++26, else ≥ 202302 → C++23, else
≥ 202002 → C++20, else ≥ 201703 → C++17, else ≥ 199711 → pre-17, else
unknown. -/
theorem C2_cpp_standard_descending_thresholds (e : CppEnv) :
    getCppStandard e =
      (if cppVersionSignal e ≥ 202600 then CppStandard.cpp_26
       else if cppVersionSignal e ≥ 202302 then CppStandard.cpp_23
       else if cppVersionSignal e ≥ 202002 then CppStandard.cpp_20
       else if cppVersionSignal e ≥ 201703 then CppStandard.cpp_17
       else if cppVersionSignal e ≥ 199711 then CppStandard.cpp_pre_17
       else CppStandard.cpp_unknown) := by
  simp only [getCppStandard, detectCppStandard]
  split_ifs <;> first | rfl | omega

/-- C3 counterexample: in a build environment whose detected standard is
C++20 and which defines no `__cpp_modules` macro, `hasModules()` returns
false, contradicting the claim that every C++20-minimum feature function
(modules included) returns true there. -/
theorem C3_counterexample_modules_false_on_cpp20 :
    getCppStandard envCpp20NoFeatureMacros = CppStandard.cpp_20 ∧
    envCpp20NoFeatureMacros.cpp_modules = none ∧
    hasModules envCpp20NoFeatureMacros = false := by
  decide

/-- C3 (amended): for concepts, coroutines, ranges, consteval, constinit,
designated initializers and three-way comparison — but not modules — the
feature function, absent its feature-test macro, returns false when the
detected standard is exactly C++17 and true when it is at least C++20;
`hasModules()`, absent `__cpp_modules`, returns false unconditionally,
whatever the detected standard. -/
theorem C3_cpp20_feature_fallbacks (e : CppEnv) :
    (getCppStandard e = CppStandard.cpp_17 →
      ((e.cpp_concepts = none → hasConcepts e = false) ∧
       (e.cpp_impl_coroutine = none → e.cpp_coroutines = none →
         hasCoroutines e = false) ∧
       (e.cpp_lib_ranges = none → hasRanges e = false) ∧
       (e.cpp_consteval = none → hasConsteval e = false) ∧
       (e.cpp_constinit = none → hasConstinit e = false) ∧
       (e.cpp_designated_initializers = none →
         hasDesignatedInitializers e = false) ∧
       (e.cpp_impl_three_way_comparison = none →
         hasThreeWayComparison e = false))) ∧
    (cppStdGe (getCppStandard e) CppStandard.cpp_20 = true →
      ((e.cpp_concepts = none → hasConcepts e = true) ∧
       (e.cpp_impl_coroutine = none → e.cpp_coroutines = none →
         hasCoroutines e = true) ∧
       (e.cpp_lib_ranges = none → hasRanges e = true) ∧
       (e.cpp_consteval = none → hasConsteval e = true) ∧
       (e.cpp_constinit = none → hasConstinit e = true) ∧
       (e.cpp_designated_initializers = none →
         hasDesignatedInitializers e = true) ∧
       (e.cpp_impl_three_way_comparison = none →
         hasThreeWayComparison e = true))) ∧
    (e.cpp_modules = none → hasModules e = false) := by
  refine ⟨?_, ?_, ?_⟩
  · intro hstd
    refine ⟨?_, ?_, ?_, ?_, ?_, ?_, ?_⟩
    · intro h
      simp [hasConcepts, h, hstd, cppStdGe, CppStandard.toLong]
    · intro h1 h2
      simp [hasCoroutines, h1, h2, hstd, cppStdGe, CppStandard.toLong]
    · intro h
      simp [hasRanges, h, hstd, cppStdGe, CppStandard.toLong]
    · intro h
      simp [hasConsteval, h, hstd, cppStdGe, CppStandard.toLong]
    · intro h
      simp [hasConstinit, h, hstd, cppStdGe, CppStandard.toLong]
    · intro h
      simp [hasDesignatedInitializers, h, hstd, cppStdGe, CppStandard.toLong]
    · intro h
      simp [hasThreeWayComparison, h, hstd, cppStdGe, CppStandard.toLong]
  · intro hge
    refine ⟨?_, ?_, ?_, ?_, ?_, ?_, ?_⟩
    · intro h
      simp [hasConcepts, h, hge]
    · intro h1 h2
      simp [hasCoroutines, h1, h2, hge]
    · intro h
      simp [hasRanges, h, hge]
    · intro h
      simp [hasConsteval, h, hge]
    · intro h
      simp [hasConstinit, h, hge]
    · intro h
      simp [hasDesignatedInitializers, h, hge]
    · intro h
      simp [hasThreeWayComparison, h, hge]
  · intro h
    simp [hasModules, h]

/-- C3 witness: on the concrete no-feature-macro C++20 environment the
detected standard is at least C++20 and `hasConcepts()` is true. -/
theorem C3_cpp20_feature_fallbacks_witness :
    cppStdGe (getCppStandard envCpp20NoFeatureMacros) CppStandard.cpp_20 =
      true ∧
    hasConcepts envCpp20NoFeatureMacros = true :=
  ⟨by decide,
   ((C3_cpp20_feature_fallbacks envCpp20NoFeatureMacros).2.1 (by decide)).1
     rfl⟩

/-- C6 counterexample: in a build environment where no architecture signal
matches and the implementation has 16-bit pointers, `pointer_size_bits` is
16 (neither 32 nor 64) and `is64Bit()` equals `is32Bit()` (both false),
refuting the claim for that environment. -/
theorem C6_counterexample_unknown_arch_16bit_pointer :
    (getArchitectureInfo envUnknownArch16BitPtr
        ByteOrder.unknown).pointer_size_bits = 16 ∧
    (getArchitectureInfo envUnknownArch16BitPtr ByteOrder.unknown).is64Bit =
      (getArchitectureInfo envUnknownArch16BitPtr
        ByteOrder.unknown).is32Bit ∧
    ¬((getArchitectureInfo envUnknownArch16BitPtr
          ByteOrder.unknown).pointer_size_bits = 32 ∨
      (getArchitectureInfo envUnknownArch16BitPtr
          ByteOrder.unknown).pointer_size_bits = 64) := by
  decide

/-- C6 (amended): `is64Bit() != is32Bit()` and
`pointer_size_bits ∈ {32, 64}` hold whenever the architecture is
recognized, or the unrecognized-architecture fallback observes an
implementation pointer width of 4 or 8 bytes; the 64-bit variant group
always yields 64, the plain variants always yield 32, and the unknown
architecture always falls back to `sizeof(void*) * 8`. -/
theorem C6_pointer_size_invariant (e : ArchEnv) (bo : ByteOrder) :
    ((detectCpuArchitecture e ≠ CpuArchitecture.unknown ∨
        e.voidPtrBytes = 4 ∨ e.voidPtrBytes = 8) →
      ((getArchitectureInfo e bo).is64Bit ≠
          (getArchitectureInfo e bo).is32Bit ∧
        ((getArchitectureInfo e bo).pointer_size_bits = 32 ∨
          (getArchitectureInfo e bo).pointer_size_bits = 64))) ∧
    ((detectCpuArchitecture e = CpuArchitecture.x86_64 ∨
        detectCpuArchitecture e = CpuArchitecture.arm_v8_64 ∨
        detectCpuArchitecture e = CpuArchitecture.mips_64 ∨
        detectCpuArchitecture e = CpuArchitecture.powerpc_64 ∨
        detectCpuArchitecture e = CpuArchitecture.risc_v_64 ∨
        detectCpuArchitecture e = CpuArchitecture.sparc_64) →
      (getArchitectureInfo e bo).pointer_size_bits = 64) ∧
    ((detectCpuArchitecture e = CpuArchitecture.x86 ∨
        detectCpuArchitecture e = CpuArchitecture.arm_v6 ∨
        detectCpuArchitecture e = CpuArchitecture.arm_v7 ∨
        detectCpuArchitecture e = CpuArchitecture.arm_v8_32 ∨
        detectCpuArchitecture e = CpuArchitecture.mips ∨
        detectCpuArchitecture e = CpuArchitecture.powerpc ∨
        detectCpuArchitecture e = CpuArchitecture.risc_v_32 ∨
        detectCpuArchitecture e = CpuArchitecture.sparc) →
      (getArchitectureInfo e bo).pointer_size_bits = 32) ∧
    (detectCpuArchitecture e = CpuArchitecture.unknown →
      (getArchitectureInfo e bo).pointer_size_bits =
        e.voidPtrBytes * 8) := by
  refine ⟨?_, ?_, ?_, ?_⟩
  · intro hside
    rcases h : detectCpuArchitecture e <;>
      simp only [getArchitectureInfo, detectPointerSize, h,
        ArchitectureInfo.is64Bit, ArchitectureInfo.is32Bit] <;>
      first
        | decide
        | (rw [h] at hside
           rcases hside with hu | hb | hb
           · exact absurd rfl hu
           · rw [hb]
             decide
           · rw [hb]
             decide)
  · intro hd
    rcases hd with h | h | h | h | h | h <;>
      simp [getArchitectureInfo, detectPointerSize, h]
  · intro hd
    rcases hd with h | h | h | h | h | h | h | h <;>
      simp [getArchitectureInfo, detectPointerSize, h]
  · intro h
    simp [getArchitectureInfo, detectPointerSize, h]

/-- C6 witness: a concrete x86-64 environment with 8-byte pointers yields
a 64-bit, non-32-bit `ArchitectureInfo`. -/
theorem C6_pointer_size_invariant_witness :
    (getArchitectureInfo
        ⟨true, false, false, false, false, false, false, false, false,
          false, false, false, none, false, false, 8⟩
        ByteOrder.little_endian).is64Bit ≠
      (getArchitectureInfo
        ⟨true, false, false, false, false, false, false, false, false,
          false, false, false, none, false, false, 8⟩
        ByteOrder.little_endian).is32Bit ∧
    ((getArchitectureInfo
        ⟨true, false, false, false, false, false, false, false, false,
          false, false, false, none, false, false, 8⟩
        ByteOrder.little_endian).pointer_size_bits = 32 ∨
      (getArchitectureInfo
        ⟨true, false, false, false, false, false, false, false, false,
          false, false, false, none, false, false, 8⟩
        ByteOrder.little_endian).pointer_size_bits = 64) :=
  (C6_pointer_size_invariant
      ⟨true, false, false, false, false, false, false, false, false,
        false, false, false, none, false, false, 8⟩
      ByteOrder.little_endian).1 (by decide)

/-- C10: unknown byte order is compatible with every byte order:
`areByteOrdersCompatible` is true when either argument is unknown, so
`convertByteOrder` returns its value unchanged there, and
`EndiannessInfo::needsByteSwap` is false when the native or target order
is unknown. -/
theorem C10_unknown_byte_order_is_compatible (o1 o2 : ByteOrder)
    (info : EndiannessInfo) (target : ByteOrder) :
    ((o1 = ByteOrder.unknown ∨ o2 = ByteOrder.unknown) →
      areByteOrdersCompatible o1 o2 = true ∧
      ∀ sizeofType value,
        convertByteOrder sizeofType value o1 o2 = value) ∧
    ((info.byte_order = ByteOrder.unknown ∨
        target = ByteOrder.unknown) →
      info.needsByteSwap target = false) := by
  constructor
  · intro h
    have hc : areByteOrdersCompatible o1 o2 = true := by
      unfold areByteOrdersCompatible
      rw [if_pos h]
    refine ⟨hc, ?_⟩
    intro sizeofType value
    unfold convertByteOrder
    rw [hc]
    simp
  · intro h
    unfold EndiannessInfo.needsByteSwap
    rw [if_pos h]

/-- C10 witness: converting a value from unknown to big-endian order is
the identity and needs no swap. -/
theorem C10_unknown_byte_order_is_compatible_witness :
    areByteOrdersCompatible ByteOrder.unknown ByteOrder.big_endian = true ∧
    convertByteOrder 4 0x12345678 ByteOrder.unknown ByteOrder.big_endian =
      0x12345678 :=
  ⟨((C10_unknown_byte_order_is_compatible ByteOrder.unknown
        ByteOrder.big_endian ⟨ByteOrder.unknown, false, false⟩
        ByteOrder.big_endian).1 (Or.inl rfl)).1,
   ((C10_unknown_byte_order_is_compatible ByteOrder.unknown
        ByteOrder.big_endian ⟨ByteOrder.unknown, false, false⟩
        ByteOrder.big_endian).1 (Or.inl rfl)).2 4 0x12345678⟩

/-- C9 counterexample: on an ARM build with `__ARM_FEATURE_AES` defined —
an architecture family lacking the CPUID query (first argument false) —
`hasHardwareAes()` returns true whatever the oracle says, refuting the
claim that every listed runtime-feature function returns false
unconditionally on such families. -/
theorem C9_counterexample_arm_hardware_aes :
    hasHardwareAes false true true ⟨fun _ _ _ => 0⟩ = true := by
  decide

/-- C9 (amended): on an x86-family build each runtime-feature function
returns exactly the tabulated CPUID bit — sse 1/0/EDX/25, sse2 1/0/EDX/26,
sse3 1/0/ECX/0, sse4.1 1/0/ECX/19, sse4.2 1/0/ECX/20, avx 1/0/ECX/28,
avx2 7/0/EBX/5, avx512f 7/0/EBX/16, aes 1/0/ECX/25, rdrand 1/0/ECX/30.
On any architecture family lacking the query, the nine functions other
than hardware_aes return false unconditionally; `hasHardwareAes()` there
returns true exactly when the ARM-intrinsics gate and `__ARM_FEATURE_AES`
are both present, and false otherwise. -/
theorem C9_cpuid_feature_bit_table (x86 arm armFeatureAes : Bool)
    (c : CpuidOracle) :
    (x86 = true →
      hasSseSupport x86 c = (c.regs 1 0 3).testBit 25 ∧
      hasSse2Support x86 c = (c.regs 1 0 3).testBit 26 ∧
      hasSse3Support x86 c = (c.regs 1 0 2).testBit 0 ∧
      hasSse41Support x86 c = (c.regs 1 0 2).testBit 19 ∧
      hasSse42Support x86 c = (c.regs 1 0 2).testBit 20 ∧
      hasAvxSupport x86 c = (c.regs 1 0 2).testBit 28 ∧
      hasAvx2Support x86 c = (c.regs 7 0 1).testBit 5 ∧
      hasAvx512fSupport x86 c = (c.regs 7 0 1).testBit 16 ∧
      hasHardwareAes x86 arm armFeatureAes c = (c.regs 1 0 2).testBit 25 ∧
      hasHardwareRandom x86 c = (c.regs 1 0 2).testBit 30) ∧
    (x86 = false →
      hasSseSupport x86 c = false ∧
      hasSse2Support x86 c = false ∧
      hasSse3Support x86 c = false ∧
      hasSse41Support x86 c = false ∧
      hasSse42Support x86 c = false ∧
      hasAvxSupport x86 c = false ∧
      hasAvx2Support x86 c = false ∧
      hasAvx512fSupport x86 c = false ∧
      hasHardwareAes x86 arm armFeatureAes c = (arm && armFeatureAes) ∧
      hasHardwareRandom x86 c = false) := by
  constructor
  · intro hx
    subst hx
    have key : ∀ (leaf subleaf : Nat) (reg : Fin 4) (bit : Nat),
        checkCpuFeature c leaf subleaf reg bit =
          (c.regs leaf subleaf reg).testBit bit := by
      intro leaf subleaf reg bit
      unfold checkCpuFeature
      rw [Nat.one_shiftLeft, Nat.and_two_pow]
      rcases h : (c.regs leaf subleaf reg).testBit bit
      · simp [h]
      · have hp : (0 : Nat) < 2 ^ bit := pow_pos (by norm_num) bit
        simp [h, hp.ne']
    exact ⟨key 1 0 3 25, key 1 0 3 26, key 1 0 2 0, key 1 0 2 19,
      key 1 0 2 20, key 1 0 2 28, key 7 0 1 5, key 7 0 1 16,
      key 1 0 2 25, key 1 0 2 30⟩
  · intro hx
    subst hx
    rcases arm <;> rcases armFeatureAes <;>
      simp [hasSseSupport, hasSse2Support, hasSse3Support, hasSse41Support,
        hasSse42Support, hasAvxSupport, hasAvx2Support, hasAvx512fSupport,
        hasHardwareAes, hasHardwareRandom]

/-- C9 witness: on an oracle whose ECX for leaf 1 is exactly bit 28, AVX
is reported and SSE3 is not; on a non-x86 family SSE is false while
hardware AES follows the ARM AES gate. -/
theorem C9_cpuid_feature_bit_table_witness :
    hasAvxSupport true ⟨fun _ _ r => if r = 2 then 2 ^ 28 else 0⟩ =
      (2 ^ 28 : Nat).testBit 28 ∧
    hasSseSupport false ⟨fun _ _ _ => 2 ^ 28⟩ = false ∧
    hasHardwareAes false true true ⟨fun _ _ _ => 2 ^ 28⟩ =
      (true && true) :=
  ⟨((C9_cpuid_feature_bit_table true false false
        ⟨fun _ _ r => if r = 2 then 2 ^ 28 else 0⟩).1 rfl).2.2.2.2.2.1,
   ((C9_cpuid_feature_bit_table false false false
        ⟨fun _ _ _ => 2 ^ 28⟩).2 rfl).1,
   ((C9_cpuid_feature_bit_table false true true
        ⟨fun _ _ _ => 2 ^ 28⟩).2 rfl).2.2.2.2.2.2.2.2.1⟩

/-- C7: the initialization state machine over the two atomic flags,
started from (false, false): the done flag becomes true after the first
call and is never reset by any returning call; once done, a call returns
immediately with the state unmodified; and every returning call leaves
`isPlatformInitialized()` true. -/
theorem C7_initialization_done_exactly_once :
    (isPlatformInitialized initialInitState = false ∧
      initializePlatform initialInitState = some ⟨true, false⟩) ∧
    (∀ s : InitState, s.g_platform_initialized = true →
      initializePlatform s = some s) ∧
    (∀ s s2 : InitState, s.g_platform_initialized = true →
      initializePlatform s = some s2 → s2.g_platform_initialized = true) ∧
    (∀ s2 : InitState, initializePlatform initialInitState = some s2 →
      isPlatformInitialized s2 = true) ∧
    (∀ s s2 : InitState, isPlatformInitialized s = true →
      initializePlatform s = some s2 → isPlatformInitialized s2 = true) := by
  refine ⟨⟨rfl, rfl⟩, ?_, ?_, ?_, ?_⟩
  · intro s hs
    unfold initializePlatform
    rw [hs]
    simp
  · intro s s2 hs hstep
    unfold initializePlatform at hstep
    rw [hs] at hstep
    simp at hstep
    rw [← hstep, hs]
  · intro s2 hstep
    unfold initializePlatform at hstep
    simp [initialInitState] at hstep
    rw [← hstep]
    rfl
  · intro s s2 hs hstep
    unfold initializePlatform at hstep
    unfold isPlatformInitialized at hs
    rw [hs] at hstep
    simp at hstep
    rw [← hstep]
    exact hs

/-- C7 witness: after a first call from the initial state, a second call
is an identity step and the platform reports initialized. -/
theorem C7_initialization_done_exactly_once_witness :
    initializePlatform (InitState.mk true false) =
      some (InitState.mk true false) ∧
    isPlatformInitialized (InitState.mk true false) = true :=
  ⟨C7_initialization_done_exactly_once.2.1 ⟨true, false⟩ rfl,
   C7_initialization_done_exactly_once.2.2.2.2 ⟨true, false⟩
     ⟨true, false⟩ rfl
     (C7_initialization_done_exactly_once.2.1 ⟨true, false⟩ rfl)⟩

namespace TrlcPlatform

/-- Bit-level characterization of the 16-bit swap: for an in-range value,
bit `i` of the swapped value is bit `8 * (1 - i / 8) + i % 8` (the same
bit offset inside the opposite byte) of the original. -/
theorem byteSwap16Impl_testBit (v i : Nat) (hv : v < 2 ^ 16)
    (hi : i < 16) :
    (byteSwap16Impl v).testBit i = v.testBit (8 * (1 - i / 8) + i % 8) := by
  have hhigh : ∀ j, 16 ≤ j → v.testBit j = false := by
    intro j hj
    exact Nat.testBit_lt_two_pow
      (lt_of_lt_of_le hv (Nat.pow_le_pow_right (by norm_num) hj))
  unfold byteSwap16Impl
  interval_cases i <;>
    simp only [Nat.testBit_mod_two_pow, Nat.testBit_or, Nat.testBit_shiftLeft,
      Nat.testBit_shiftRight] <;>
    simp [hhigh]

/-- The 16-bit swap is an involution on 16-bit values. -/
theorem byteSwap16Impl_invol (v : Nat) (hv : v < 2 ^ 16) :
    byteSwap16Impl (byteSwap16Impl v) = v := by
  have hb : byteSwap16Impl v < 2 ^ 16 := Nat.mod_lt _ (by norm_num)
  apply Nat.eq_of_testBit_eq
  intro i
  by_cases hi : i < 16
  · rw [byteSwap16Impl_testBit _ i hb hi,
      byteSwap16Impl_testBit v _ hv (by omega)]
    congr 1
    omega
  · have h1 : byteSwap16Impl (byteSwap16Impl v) < 2 ^ i :=
      lt_of_lt_of_le (Nat.mod_lt _ (by norm_num))
        (Nat.pow_le_pow_right (by norm_num) (by omega))
    have h2 : v < 2 ^ i :=
      lt_of_lt_of_le hv (Nat.pow_le_pow_right (by norm_num) (by omega))
    rw [Nat.testBit_lt_two_pow h1, Nat.testBit_lt_two_pow h2]

/-- Bit-level characterization of the 32-bit swap (all terms are masked,
so no range hypothesis on the value is needed). -/
theorem byteSwap32Impl_testBit (v i : Nat) (hi : i < 32) :
    (byteSwap32Impl v).testBit i = v.testBit (8 * (3 - i / 8) + i % 8) := by
  unfold byteSwap32Impl
  rw [show (0xFF000000 : Nat) = (2 ^ 8 - 1) <<< 24 from by decide,
    show (0x00FF0000 : Nat) = (2 ^ 8 - 1) <<< 16 from by decide,
    show (0x0000FF00 : Nat) = (2 ^ 8 - 1) <<< 8 from by decide,
    show (0x000000FF : Nat) = 2 ^ 8 - 1 from by decide]
  interval_cases i <;>
    simp only [Nat.testBit_or, Nat.testBit_and, Nat.testBit_shiftLeft,
      Nat.testBit_shiftRight, Nat.testBit_two_pow_sub_one] <;>
    simp

/-- The 32-bit swap always lands below `2 ^ 32`. -/
theorem byteSwap32Impl_lt (v : Nat) : byteSwap32Impl v < 2 ^ 32 := by
  unfold byteSwap32Impl
  have ha : v &&& 0xFF000000 ≤ 0xFF000000 := Nat.and_le_right
  have hb : v &&& 0x00FF0000 ≤ 0x00FF0000 := Nat.and_le_right
  have hc : v &&& 0x0000FF00 ≤ 0x0000FF00 := Nat.and_le_right
  have hd : v &&& 0x000000FF ≤ 0x000000FF := Nat.and_le_right
  refine Nat.or_lt_two_pow
      (Nat.or_lt_two_pow (Nat.or_lt_two_pow ?_ ?_) ?_) ?_ <;>
    first
      | (rw [Nat.shiftRight_eq_div_pow]; omega)
      | (rw [Nat.shiftLeft_eq]; omega)

/-- The 32-bit swap is an involution on 32-bit values. -/
theorem byteSwap32Impl_invol (v : Nat) (hv : v < 2 ^ 32) :
    byteSwap32Impl (byteSwap32Impl v) = v := by
  apply Nat.eq_of_testBit_eq
  intro i
  by_cases hi : i < 32
  · rw [byteSwap32Impl_testBit _ i hi, byteSwap32Impl_testBit v _ (by omega)]
    congr 1
    omega
  · have h1 : byteSwap32Impl (byteSwap32Impl v) < 2 ^ i :=
      lt_of_lt_of_le (byteSwap32Impl_lt _)
        (Nat.pow_le_pow_right (by norm_num) (by omega))
    have h2 : v < 2 ^ i :=
      lt_of_lt_of_le hv (Nat.pow_le_pow_right (by norm_num) (by omega))
    rw [Nat.testBit_lt_two_pow h1, Nat.testBit_lt_two_pow h2]

/-- Bit-level characterization of the 64-bit swap. -/
theorem byteSwap64Impl_testBit (v i : Nat) (hi : i < 64) :
    (byteSwap64Impl v).testBit i = v.testBit (8 * (7 - i / 8) + i % 8) := by
  unfold byteSwap64Impl
  rw [show (0xFF00000000000000 : Nat) = (2 ^ 8 - 1) <<< 56 from by decide,
    show (0x00FF000000000000 : Nat) = (2 ^ 8 - 1) <<< 48 from by decide,
    show (0x0000FF0000000000 : Nat) = (2 ^ 8 - 1) <<< 40 from by decide,
    show (0x000000FF00000000 : Nat) = (2 ^ 8 - 1) <<< 32 from by decide,
    show (0x00000000FF000000 : Nat) = (2 ^ 8 - 1) <<< 24 from by decide,
    show (0x0000000000FF0000 : Nat) = (2 ^ 8 - 1) <<< 16 from by decide,
    show (0x000000000000FF00 : Nat) = (2 ^ 8 - 1) <<< 8 from by decide,
    show (0x00000000000000FF : Nat) = 2 ^ 8 - 1 from by decide]
  interval_cases i <;>
    simp only [Nat.testBit_or, Nat.testBit_and, Nat.testBit_shiftLeft,
      Nat.testBit_shiftRight, Nat.testBit_two_pow_sub_one] <;>
    simp

/-- The 64-bit swap always lands below `2 ^ 64`. -/
theorem byteSwap64Impl_lt (v : Nat) : byteSwap64Impl v < 2 ^ 64 := by
  unfold byteSwap64Impl
  have h1 : v &&& 0xFF00000000000000 ≤ 0xFF00000000000000 := Nat.and_le_right
  have h2 : v &&& 0x00FF000000000000 ≤ 0x00FF000000000000 := Nat.and_le_right
  have h3 : v &&& 0x0000FF0000000000 ≤ 0x0000FF0000000000 := Nat.and_le_right
  have h4 : v &&& 0x000000FF00000000 ≤ 0x000000FF00000000 := Nat.and_le_right
  have h5 : v &&& 0x00000000FF000000 ≤ 0x00000000FF000000 := Nat.and_le_right
  have h6 : v &&& 0x0000000000FF0000 ≤ 0x0000000000FF0000 := Nat.and_le_right
  have h7 : v &&& 0x000000000000FF00 ≤ 0x000000000000FF00 := Nat.and_le_right
  have h8 : v &&& 0x00000000000000FF ≤ 0x00000000000000FF := Nat.and_le_right
  refine Nat.or_lt_two_pow
      (Nat.or_lt_two_pow
        (Nat.or_lt_two_pow
          (Nat.or_lt_two_pow
            (Nat.or_lt_two_pow
              (Nat.or_lt_two_pow (Nat.or_lt_two_pow ?_ ?_) ?_) ?_) ?_) ?_)
        ?_) ?_ <;>
    first
      | (rw [Nat.shiftRight_eq_div_pow]; omega)
      | (rw [Nat.shiftLeft_eq]; omega)

/-- The 64-bit swap is an involution on 64-bit values. -/
theorem byteSwap64Impl_invol (v : Nat) (hv : v < 2 ^ 64) :
    byteSwap64Impl (byteSwap64Impl v) = v := by
  apply Nat.eq_of_testBit_eq
  intro i
  by_cases hi : i < 64
  · rw [byteSwap64Impl_testBit _ i hi, byteSwap64Impl_testBit v _ (by omega)]
    congr 1
    omega
  · have h1 : byteSwap64Impl (byteSwap64Impl v) < 2 ^ i :=
      lt_of_lt_of_le (byteSwap64Impl_lt _)
        (Nat.pow_le_pow_right (by norm_num) (by omega))
    have h2 : v < 2 ^ i :=
      lt_of_lt_of_le hv (Nat.pow_le_pow_right (by norm_num) (by omega))
    rw [Nat.testBit_lt_two_pow h1, Nat.testBit_lt_two_pow h2]

end TrlcPlatform

/-- C8: byte swapping is an involution — for every in-range unsigned
16/32/64-bit value, swapping twice is the identity, likewise for the
generic `byteSwap` at each supported size (1, 2, 4, 8 bytes) — and the
three concrete swap values from the spec hold. -/
theorem C8_byte_swap_involution :
    (∀ v, v < 2 ^ 16 → byteSwap16 (byteSwap16 v) = v) ∧
    (∀ v, v < 2 ^ 32 → byteSwap32 (byteSwap32 v) = v) ∧
    (∀ v, v < 2 ^ 64 → byteSwap64 (byteSwap64 v) = v) ∧
    (∀ sizeofType v,
      (sizeofType = 1 ∨ sizeofType = 2 ∨ sizeofType = 4 ∨ sizeofType = 8) →
      v < 2 ^ (8 * sizeofType) →
      byteSwap sizeofType (byteSwap sizeofType v) = v) ∧
    (byteSwap16 0x1234 = 0x3412 ∧
      byteSwap32 0x12345678 = 0x78563412 ∧
      byteSwap64 0x123456789ABCDEF0 = 0xF0DEBC9A78563412) := by
  refine ⟨?_, ?_, ?_, ?_, by decide, by decide, by decide⟩
  · intro v hv
    exact byteSwap16Impl_invol v hv
  · intro v hv
    exact byteSwap32Impl_invol v hv
  · intro v hv
    exact byteSwap64Impl_invol v hv
  · intro sizeofType v hs hv
    rcases hs with h | h | h | h <;> subst h <;>
      simp only [byteSwap, byteSwap16, byteSwap32, byteSwap64] <;>
      norm_num
    · exact byteSwap16Impl_invol v (by norm_num at hv ⊢; omega)
    · exact byteSwap32Impl_invol v (by norm_num at hv ⊢; omega)
    · exact byteSwap64Impl_invol v (by norm_num at hv ⊢; omega)

/-- C8 witness: the double swap at the spec's concrete 16-bit value. -/
theorem C8_byte_swap_involution_witness :
    byteSwap16 (byteSwap16 0x1234) = 0x1234 :=
  C8_byte_swap_involution.1 0x1234 (by decide)
